import Mathlib

/-!
Shallow embedding of the hospital feedback analytics core
(alert engine, sentiment fusion, doctor risk/rating engine,
trend aggregation, issue clustering, facility quality engine).

Conventions of the embedding:
* Python floats are modelled as rationals (`ℚ`); `round(x, n)` is modelled by
  `round3` / `round2` below (round-half-to-even on the scaled rational, which
  is Python's rounding rule on exact values).
* Wall-clock timestamps (`datetime.now()`) are passed explicitly as a rational
  number of seconds (`now`); `timedelta(days = d)` is `d * 86400` seconds and
  the calendar-date component of a timestamp is `⌊ts / 86400⌋`.
* Python's stable `sorted` is modelled with `List.insertionSort`, which is
  stable with the same tie-breaking behaviour.
* Python dicts that are only ever iterated are modelled as association lists
  in insertion order; `defaultdict(int)` counters are modelled by counting
  occurrences directly.
* Side-effecting handler dispatch and printing are omitted: they do not feed
  back into any state or return value of the modelled operations.
-/

/-! ### Rational rounding helpers (Python `round`) -/

/-- Round-half-to-even on a rational, Python's `round` rule for exact values. -/
def pyRound (x : ℚ) : ℤ :=
  let f : ℤ := ⌊x⌋
  let r : ℚ := x - f
  if r < 1/2 then f
  else if 1/2 < r then f + 1
  else if f % 2 = 0 then f else f + 1

/-- Python `round(x, 3)` on rationals. -/
def round3 (x : ℚ) : ℚ := (pyRound (x * 1000) : ℚ) / 1000

/-- Python `round(x, 2)` on rationals. -/
def round2 (x : ℚ) : ℚ := (pyRound (x * 100) : ℚ) / 100

/-! ### Substring matching (Python's `in` on lowercased text) -/

/-- `leadsWith p s` : the char list `p` is an initial segment of `s`. -/
def leadsWith : List Char → List Char → Bool
  | [], _ => true
  | _ :: _, [] => false
  | p :: ps, c :: cs => p = c && leadsWith ps cs

/-- `hasSub pat s` : `pat` occurs as a contiguous sublist of `s`
(Python's `pat in s` on strings). -/
def hasSub (pat : List Char) : List Char → Bool
  | [] => leadsWith pat []
  | c :: cs => leadsWith pat (c :: cs) || hasSub pat cs

/-- ASCII lower-casing of one character (Python `str.lower` restricted to
ASCII, which is all the source's keyword lists use). -/
def asciiLower (c : Char) : Char :=
  if 'A' ≤ c ∧ c ≤ 'Z' then Char.ofNat (c.toNat + 32) else c

/-- The character list of `s.lower()`. -/
def lowerChars (s : String) : List Char := s.data.map asciiLower

/-- Python `kw in text.lower()` for a (lowercase) keyword `kw`. -/
def containsLower (text kw : String) : Bool := hasSub kw.data (lowerChars text)

/-! ### Ordered-dict helpers -/

/-- Helper for `dedupFirst`: drop elements already `seen`. -/
def dedupFirstAux {α : Type} [DecidableEq α] (seen : List α) : List α → List α
  | [] => []
  | a :: l =>
      if a ∈ seen then dedupFirstAux seen l
      else a :: dedupFirstAux (a :: seen) l

/-- First-occurrence deduplication: the insertion order of the keys of a
Python dict built by repeated insertion. -/
def dedupFirst {α : Type} [DecidableEq α] (l : List α) : List α :=
  dedupFirstAux [] l

/-- Python dict assignment `m[k] = v` on an insertion-ordered association
list: overwrite in place if the key exists, else append. -/
def updateAssoc : List (String × List String) → String → List String →
    List (String × List String)
  | [], k, v => [(k, v)]
  | (k', v') :: rest, k, v =>
      if k' = k then (k, v) :: rest else (k', v') :: updateAssoc rest k v

/-! ### Alert engine (`backend/alert_system.py`) -/

/-- `AlertSeverity` enum. -/
inductive AlertSeverity where
  | CRITICAL
  | HIGH
  | MEDIUM
  | LOW
deriving DecidableEq, Repr

/-- `AlertType` enum. -/
inductive AlertType where
  | SENTIMENT_CRITICAL
  | DOCTOR_BURNOUT
  | COMPLAINT_FILED
  | FOOD_QUALITY
  | ROOM_QUALITY
  | ISSUE_CLUSTER
  | SYSTEM_ERROR
deriving DecidableEq, Repr

/-- The severity rank used by `get_active_alerts`'s sort key:
`{'CRITICAL': 0, 'HIGH': 1, 'MEDIUM': 2, 'LOW': 3}`. -/
def severity_rank : AlertSeverity → Nat
  | AlertSeverity.CRITICAL => 0
  | AlertSeverity.HIGH => 1
  | AlertSeverity.MEDIUM => 2
  | AlertSeverity.LOW => 3

/-- `Alert` object. `details` is kept as a string-keyed association list of
rendered values; `created_at`/`acknowledged_at` are seconds-since-epoch. -/
structure Alert where
  alert_id : String
  alert_type : AlertType
  severity : AlertSeverity
  message : String
  details : List (String × String)
  created_at : ℚ
  acknowledged : Bool
  acknowledged_at : Option ℚ
  acknowledged_by : Option String
deriving DecidableEq, Repr

/-- `Alert.acknowledge`: unconditionally sets the flag and overwrites the
acknowledgement timestamp and actor. -/
def Alert.ack (a : Alert) (user_id : String) (now : ℚ) : Alert :=
  ⟨a.alert_id, a.alert_type, a.severity, a.message, a.details, a.created_at,
    true, some now, some user_id⟩

/-- The `threshold_config` dict of `AlertManager.__init__`. -/
structure ThresholdConfig where
  sentiment_critical : ℚ
  sentiment_warning : ℚ
  burnout_critical : ℚ
  burnout_high : ℚ
  complaint_critical : ℚ
  food_quality_critical : ℚ
  room_quality_critical : ℚ
  issue_cluster_critical : ℚ
deriving DecidableEq, Repr

/-- The initial `threshold_config` values. -/
def initialThresholdConfig : ThresholdConfig :=
  ⟨-(7/10), -(4/10), 7/10, 5/10, 1, 2, 2, 5⟩

/-- `AlertManager` state: the alert ledger plus the threshold config.
(Registered handlers are pure side effects and are not modelled.) -/
structure AlertManager where
  alerts : List Alert
  threshold_config : ThresholdConfig
deriving DecidableEq, Repr

/-- A fresh `AlertManager`. -/
def initialAlertManager : AlertManager := ⟨[], initialThresholdConfig⟩

/-- `AlertManager.create_alert`: builds the alert (its id derived from the
current timestamp), appends it to the ledger, and returns it. -/
def create_alert (m : AlertManager) (ty : AlertType) (sev : AlertSeverity)
    (message : String) (details : List (String × String)) (now : ℚ) :
    Alert × AlertManager :=
  let a : Alert :=
    ⟨"ALT_" ++ toString now.num, ty, sev, message, details, now, false, none, none⟩
  (a, ⟨m.alerts ++ [a], m.threshold_config⟩)

/-- `AlertManager.check_food_quality_alert`: HIGH `FOOD_QUALITY` alert when
`quality_score < threshold_config['food_quality_critical']`, else `None`. -/
def check_food_quality_alert (m : AlertManager) (quality_score : ℚ) (now : ℚ) :
    Option Alert × AlertManager :=
  if quality_score < m.threshold_config.food_quality_critical then
    let r := create_alert m AlertType.FOOD_QUALITY AlertSeverity.HIGH
      "CRITICAL: Food quality issue reported"
      [("quality_score", toString quality_score.num)] now
    (some r.1, r.2)
  else (none, m)

/-- `AlertManager.check_room_quality_alert`: HIGH `ROOM_QUALITY` alert when
`cleanliness_score < threshold_config['room_quality_critical']`, else `None`. -/
def check_room_quality_alert (m : AlertManager) (room_id : String)
    (cleanliness_score : ℚ) (now : ℚ) : Option Alert × AlertManager :=
  if cleanliness_score < m.threshold_config.room_quality_critical then
    let r := create_alert m AlertType.ROOM_QUALITY AlertSeverity.HIGH
      "CRITICAL: Room cleanliness issue"
      [("room_id", room_id), ("cleanliness_score", toString cleanliness_score.num)] now
    (some r.1, r.2)
  else (none, m)

/-- The sort relation of `get_active_alerts`: Python's
`sorted(_, key = severity rank, reverse = True)` orders by *descending* rank
(stably), i.e. `x` may come before `y` iff `rank y ≤ rank x`. -/
def activeAlertRel (x y : Alert) : Prop :=
  severity_rank y.severity ≤ severity_rank x.severity

instance : DecidableRel activeAlertRel := fun x y =>
  Nat.decLe (severity_rank y.severity) (severity_rank x.severity)

instance : IsTotal Alert activeAlertRel :=
  ⟨fun a b => Nat.le_total (severity_rank b.severity) (severity_rank a.severity)⟩

instance : IsTrans Alert activeAlertRel :=
  ⟨fun _ _ _ hab hbc => Nat.le_trans hbc hab⟩

/-- The unacknowledged alerts, optionally filtered by severity, in ledger
order (the list `get_active_alerts` sorts). -/
def activeFiltered (alerts : List Alert) (sev : Option AlertSeverity) :
    List Alert :=
  let active := alerts.filter (fun a => !a.acknowledged)
  match sev with
  | none => active
  | some s => active.filter (fun a => a.severity = s)

/-- `AlertManager.get_active_alerts`: unacknowledged alerts, optionally
filtered by severity, sorted by Python's stable `sorted` with
`key = {'CRITICAL': 0, 'HIGH': 1, 'MEDIUM': 2, 'LOW': 3}[severity]` and
`reverse = True`. -/
def get_active_alerts (alerts : List Alert) (sev : Option AlertSeverity) :
    List Alert :=
  List.insertionSort activeAlertRel (activeFiltered alerts sev)

/-- `AlertManager.acknowledge_alert`: acknowledges the first alert whose id
matches and returns `True`; returns `False` when no id matches. -/
def acknowledge_alert (alerts : List Alert) (alert_id user_id : String)
    (now : ℚ) : Bool × List Alert :=
  match alerts with
  | [] => (false, [])
  | a :: rest =>
      if a.alert_id = alert_id then (true, a.ack user_id now :: rest)
      else
        let r := acknowledge_alert rest alert_id user_id now
        (r.1, a :: r.2)

/-! ### Facility quality engine (`facility_monitor.py`) -/

/-- The inline alert dict built by the facility submit functions. -/
structure FacilitySignal where
  sig_type : String
  severity : String
  room_id : Option String
  message : String
  timestamp : ℚ
deriving DecidableEq, Repr

/-- A stored food quality review. -/
structure FoodReview where
  review_id : String
  quality_score : ℚ
  aspects : List (String × ℚ)
  comments : String
  submitted_date : ℚ
  status : String
deriving DecidableEq, Repr

/-- A stored room quality review. -/
structure RoomReview where
  review_id : String
  room_id : String
  cleanliness_score : ℚ
  aspects : List (String × ℚ)
  comments : String
  submitted_date : ℚ
  status : String
deriving DecidableEq, Repr

/-- `FacilityQualityMonitor` state.  The source keys its two dicts by
`review_id` (food) and `room_id` (room) but every aggregate iterates over all
stored reviews, so flat ledgers are an equivalent state representation. -/
structure FacilityMonitor where
  food_reviews : List FoodReview
  room_reviews : List RoomReview
deriving DecidableEq, Repr

/-- The return dict of the facility submit functions. -/
structure SubmitResult where
  status : String
  review_id : String
  room_id : Option String
  alert : Option FacilitySignal
deriving DecidableEq, Repr

/-- `FacilityQualityMonitor.submit_food_quality_review`: stores the review and
attaches a HIGH `FOOD_QUALITY_CRITICAL` signal when `quality_score <= 2`. -/
def submit_food_quality_review (mon : FacilityMonitor) (review_id : String)
    (quality_score : ℚ) (aspects : List (String × ℚ)) (comments : String)
    (now : ℚ) : SubmitResult × FacilityMonitor :=
  let review : FoodReview :=
    ⟨review_id, quality_score, aspects, comments, now, "ACTIVE"⟩
  let alert : Option FacilitySignal :=
    if quality_score ≤ 2 then
      some ⟨"FOOD_QUALITY_CRITICAL", "HIGH", none,
        "Critical food quality issue reported", now⟩
    else none
  (⟨"submitted", review_id, none, alert⟩,
    ⟨mon.food_reviews ++ [review], mon.room_reviews⟩)

/-- `FacilityQualityMonitor.submit_room_quality_review`: stores the review and
attaches a HIGH `ROOM_QUALITY_CRITICAL` signal when `cleanliness_score <= 2`. -/
def submit_room_quality_review (mon : FacilityMonitor) (review_id room_id : String)
    (cleanliness_score : ℚ) (aspects : List (String × ℚ)) (comments : String)
    (now : ℚ) : SubmitResult × FacilityMonitor :=
  let review : RoomReview :=
    ⟨review_id, room_id, cleanliness_score, aspects, comments, now, "ACTIVE"⟩
  let alert : Option FacilitySignal :=
    if cleanliness_score ≤ 2 then
      some ⟨"ROOM_QUALITY_CRITICAL", "HIGH", some room_id,
        "Critical room cleanliness issue", now⟩
    else none
  (⟨"submitted", review_id, some room_id, alert⟩,
    ⟨mon.food_reviews, mon.room_reviews ++ [review]⟩)

/-! ### Sentiment fusion engine (`sentiment_analyzer.py`) -/

/-- Sentiment label values produced by `comprehensive_analysis`. -/
inductive SentLabel where
  | POSITIVE
  | NEGATIVE
  | NEUTRAL
deriving DecidableEq, Repr

/-- The outputs of the external NLP signal extractors for one (already
translated) text: VADER's compound score, TextBlob's polarity and
subjectivity, and the transformer classifier's signed score.
`transformer_score = none` models the unavailable/failed classifier, whose
output dict carries score `0.0` (`analyze_with_transformer`). -/
structure SignalOutputs where
  vader_compound : ℚ
  polarity : ℚ
  subjectivity : ℚ
  transformer_score : Option ℚ
deriving DecidableEq, Repr

/-- The curated `negative_keywords` list of `comprehensive_analysis`. -/
def negative_keywords : List String :=
  ["bad", "poor", "terrible", "worst", "horrible", "disappointed", "awful",
   "pain", "delay", "slow", "rude", "angry", "error", "problem", "issue",
   "needs improvement"]

/-- `neg_count`: how many curated negative keywords occur in the lowercased
text (`sum(1 for kw in negative_keywords if kw in english_text.lower())`). -/
def neg_count (english_text : String) : Nat :=
  negative_keywords.countP (fun kw => containsLower english_text kw)

/-- `transformer_scores.get('score', 0)`: the classifier sub-signal, `0` when
the classifier was unavailable or failed. -/
def transformer_score_value (sig : SignalOutputs) : ℚ :=
  sig.transformer_score.getD 0

/-- The fused `overall_score` before rounding:
`vader.compound * 0.4 + textblob.polarity * 0.3 + transformer.score * 0.3`. -/
def overall_score_raw (sig : SignalOutputs) : ℚ :=
  sig.vader_compound * (4/10) + sig.polarity * (3/10) +
    transformer_score_value sig * (3/10)

/-- The label decision of `comprehensive_analysis`: POSITIVE when the fused
score exceeds `0.3`; otherwise NEGATIVE when the fused score is below `-0.3`
or a curated negative keyword occurs and VADER or TextBlob is itself
negative; otherwise NEUTRAL. -/
def sentiment_label_of (english_text : String) (sig : SignalOutputs) : SentLabel :=
  let overall := overall_score_raw sig
  if overall > 3/10 then SentLabel.POSITIVE
  else if overall < -(3/10) ∨
      (0 < neg_count english_text ∧ (sig.vader_compound < 0 ∨ sig.polarity < 0)) then
    SentLabel.NEGATIVE
  else SentLabel.NEUTRAL

/-- The numeric/label core of the `comprehensive_analysis` return dict.
The provenance fields (per-signal dicts, emotion profile, keywords, language)
are passed through from the extractors and are not claim-relevant. -/
structure AnalysisResult where
  overall_score : ℚ
  sentiment_label : SentLabel
  confidence : ℚ
  subjectivity : ℚ
deriving DecidableEq, Repr

/-- `comprehensive_analysis` (numeric/label core): fuses the extracted
signals, decides the label on the unrounded fusion, and reports the rounded
score, confidence and subjectivity. -/
def comprehensive_analysis (english_text : String) (sig : SignalOutputs) :
    AnalysisResult :=
  ⟨round3 (overall_score_raw sig),
    sentiment_label_of english_text sig,
    round3 |overall_score_raw sig|,
    round3 sig.subjectivity⟩

/-! ### Doctor risk & rating engine (`backend/doctor_analyzer.py`) -/

/-- One logged duty shift (`register_duty_shift`'s `shift_info`). -/
structure ShiftInfo where
  date : String
  hours : ℚ
  patient_count : ℕ
  emergency_cases : ℕ
  workload_index : ℚ
  timestamp : ℚ
deriving DecidableEq, Repr

/-- `register_duty_shift`: appends the shift record (with its derived
`workload_index`) to the doctor's duty log. -/
def register_duty_shift (duty_logs : List ShiftInfo) (shift_date : String)
    (hours : ℚ) (patient_count emergency_cases : ℕ) (now : ℚ) :
    List ShiftInfo :=
  duty_logs ++ [⟨shift_date, hours, patient_count, emergency_cases,
    if 0 < hours then (patient_count : ℚ) / hours else 0, now⟩]

/-- Burnout `risk_level` values. -/
inductive RiskLevel where
  | NO_DATA
  | LOW
  | MODERATE
  | HIGH
  | CRITICAL
deriving DecidableEq, Repr

/-- The `metrics` sub-dict of a full burnout report. -/
structure BurnoutMetrics where
  average_hours_per_shift : ℚ
  average_patients_per_shift : ℚ
  total_emergency_cases : ℕ
  total_shifts_analyzed : ℕ
  hours_factor : ℚ
  patient_factor : ℚ
  emergency_factor : ℚ
deriving DecidableEq, Repr

/-- The `calculate_burnout_risk` return dict.  The degenerate branches return
`metrics = {}` and omit `recommendations`, modelled as `none`. -/
structure RiskReport where
  doctor_id : String
  risk_level : RiskLevel
  risk_score : ℚ
  metrics : Option BurnoutMetrics
  recommendations : Option (List String)
deriving DecidableEq, Repr

/-- `hours_factor = min(avg_hours_per_shift / 12, 1.0) * 0.4`. -/
def hours_factor_of (avg_hours_per_shift : ℚ) : ℚ :=
  min (avg_hours_per_shift / 12) 1 * (4/10)

/-- `patient_factor = min(avg_patients_per_shift / 30, 1.0) * 0.35`. -/
def patient_factor_of (avg_patients_per_shift : ℚ) : ℚ :=
  min (avg_patients_per_shift / 30) 1 * (35/100)

/-- `emergency_factor = min(total_emergencies / num_shifts / 5, 1.0) * 0.25`. -/
def emergency_factor_of (avg_emergencies_per_shift : ℚ) : ℚ :=
  min (avg_emergencies_per_shift / 5) 1 * (25/100)

/-- `burnout_score = hours_factor + patient_factor + emergency_factor`, as a
function of the three per-shift averages. -/
def burnout_score_of (avgH avgP avgE : ℚ) : ℚ :=
  hours_factor_of avgH + patient_factor_of avgP + emergency_factor_of avgE

/-- The burnout `risk_level` thresholds. -/
def risk_level_of (burnout_score : ℚ) : RiskLevel :=
  if burnout_score > 7/10 then RiskLevel.CRITICAL
  else if burnout_score > 5/10 then RiskLevel.HIGH
  else if burnout_score > 3/10 then RiskLevel.MODERATE
  else RiskLevel.LOW

/-- `_get_burnout_recommendations`. -/
def get_burnout_recommendations (burnout_score : ℚ) : List String :=
  if burnout_score > 7/10 then
    ["URGENT: Reduce work schedule immediately",
     "Schedule wellness check-up",
     "Consider temporary leave",
     "Assign additional support staff"]
  else if burnout_score > 5/10 then
    ["Monitor workload closely",
     "Reduce patient load by 20-30%",
     "Encourage breaks and time off",
     "Provide mental health support"]
  else if burnout_score > 3/10 then
    ["Continue current schedule with monitoring",
     "Encourage regular breaks",
     "Schedule monthly wellness check-ins"]
  else ["Current workload is sustainable"]

/-- `calculate_burnout_risk`: `NO_DATA`/0 when the doctor has no logged
shifts at all; `LOW`/0 when shifts exist but none fall in the trailing
window; otherwise the weighted factor formula over the windowed shifts.
(In the main branch `num_shifts > 0` always holds, so the source's
`if num_shifts > 0 else 0` guards on the averages are the plain divisions.) -/
def calculate_burnout_risk (doctor_id : String) (duty_logs : List ShiftInfo)
    (now : ℚ) (days_window : ℕ) : RiskReport :=
  if duty_logs.isEmpty then
    ⟨doctor_id, RiskLevel.NO_DATA, 0, none, none⟩
  else
    let cutoff := now - (days_window : ℚ) * 86400
    let recent := duty_logs.filter (fun s => cutoff < s.timestamp)
    if recent.isEmpty then
      ⟨doctor_id, RiskLevel.LOW, 0, none, none⟩
    else
      let num : ℚ := recent.length
      let total_emergencies := (recent.map (fun s => s.emergency_cases)).sum
      let avgH := (recent.map (fun s => s.hours)).sum / num
      let avgP := (recent.map (fun s => (s.patient_count : ℚ))).sum / num
      let avgE := (total_emergencies : ℚ) / num
      let score := burnout_score_of avgH avgP avgE
      ⟨doctor_id, risk_level_of score, round3 score,
        some ⟨round2 avgH, round2 avgP, total_emergencies, recent.length,
          round3 (hours_factor_of avgH), round3 (patient_factor_of avgP),
          round3 (emergency_factor_of avgE)⟩,
        some (get_burnout_recommendations score)⟩

/-- A tracked per-doctor sentiment sample (`track_sentiment`). -/
structure SentimentSample where
  score : ℚ
  review_id : Option String
  timestamp : ℚ
deriving DecidableEq, Repr

/-- Python `int()` truncation toward zero on a rational. -/
def python_int (q : ℚ) : ℤ := if 0 ≤ q then ⌊q⌋ else ⌈q⌉

/-- The affine map from a sentiment score in `[-1, 1]` to a rating in
`[1, 5]`: `((score + 1) / 2) * 4 + 1`. -/
def rating_of_score (s : ℚ) : ℚ := ((s + 1) / 2) * 4 + 1

/-- The clamped integer rating bucket of one sample:
`min(5, max(1, int(rating_val)))`. -/
def rating_bin (s : ℚ) : ℤ := min 5 (max 1 (python_int (rating_of_score s)))

/-- Bump a counter key in an insertion-ordered counter list
(`defaultdict(int)` increment). -/
def bumpCount : List (ℤ × ℕ) → ℤ → List (ℤ × ℕ)
  | [], k => [(k, 1)]
  | (k', n) :: rest, k =>
      if k' = k then (k', n + 1) :: rest else (k', n) :: bumpCount rest k

/-- The `rating_distribution` histogram over the per-sample rating buckets. -/
def build_rating_dist (scores : List ℚ) : List (ℤ × ℕ) :=
  scores.foldl (fun d s => bumpCount d (rating_bin s)) []

/-- `_get_rating_status`. -/
def rating_status (rating : ℚ) : String :=
  if rating ≥ 9/2 then "EXCELLENT"
  else if rating ≥ 4 then "VERY_GOOD"
  else if rating ≥ 7/2 then "GOOD"
  else if rating ≥ 3 then "FAIR"
  else "POOR"

/-- The `get_doctor_rating` return dict.  The no-samples branch returns
`rating = 0`, `total_reviews = 0`, an empty distribution, and omits the
`average_sentiment_score` and `status` keys (modelled as `none`). -/
structure RatingReport where
  doctor_id : String
  rating : ℚ
  total_reviews : ℕ
  average_sentiment_score : Option ℚ
  rating_distribution : List (ℤ × ℕ)
  status : Option String
deriving DecidableEq, Repr

/-- `get_doctor_rating`: mean tracked sentiment affinely mapped to `[1, 5]`
(rounded to 2 decimals), with a clamped integer histogram; a zero-valued
report when the doctor has no tracked samples. -/
def get_doctor_rating (doctor_id : String) (sentiments : List SentimentSample) :
    RatingReport :=
  if sentiments.isEmpty then
    ⟨doctor_id, 0, 0, none, [], none⟩
  else
    let scores := sentiments.map (fun s => s.score)
    let avg := scores.sum / scores.length
    let rating := rating_of_score avg
    ⟨doctor_id, round2 rating, sentiments.length, some (round3 avg),
      build_rating_dist scores, some (rating_status rating)⟩

/-- A filed complaint (`file_complaint`). -/
structure Complaint where
  complaint_id : String
  doctor_id : String
  ctype : String
  description : String
  severity : String
  status : String
  filed_date : ℚ
  resolved_date : Option ℚ
deriving DecidableEq, Repr

/-- The composite performance formula of `get_doctor_performance_dashboard`:
`(rating / 5 * 100) * 0.5 + ((1 - burnout_risk_score) * 100) * 0.3 +
(100 - min(total_complaints * 5, 100)) * 0.2`. -/
def performance_score_of (rating burnout_risk_score : ℚ)
    (total_complaints : ℕ) : ℚ :=
  (rating / 5 * 100) * (1/2) + ((1 - burnout_risk_score) * 100) * (3/10) +
    (100 - min ((total_complaints : ℚ) * 5) 100) * (2/10)

/-- The per-doctor state consumed by `get_doctor_performance_dashboard`. -/
structure DoctorState where
  duty_logs : List ShiftInfo
  complaints : List Complaint
  sentiment_scores : List SentimentSample
deriving DecidableEq, Repr

/-- The `overall_performance_score` of `get_doctor_performance_dashboard`:
the composite formula applied to the reported (rounded) rating, the reported
burnout risk score over the default 30-day window, and the complaint count
(`get_complaint_history`'s `total_complaints` is the complaint list length in
both of its branches). -/
def overall_performance_score (doctor_id : String) (st : DoctorState)
    (now : ℚ) : ℚ :=
  round2 (performance_score_of
    (get_doctor_rating doctor_id st.sentiment_scores).rating
    (calculate_burnout_risk doctor_id st.duty_logs now 30).risk_score
    st.complaints.length)

/-! ### Review ledger, trends and issue clustering (`backend/dashboard.py`) -/

/-- A scored review stored by `SentimentTrendAnalyzer.add_review_analysis`.
The optional submission metadata fields are not read by any aggregate and are
omitted. -/
structure Review where
  review_id : String
  sentiment_score : ℚ
  sentiment_label : SentLabel
  category : String
  emotions : List (String × ℚ)
  keywords : List String
  timestamp : ℚ
deriving DecidableEq, Repr

/-- The calendar-date component of a timestamp (the grouping key
`timestamp.split('T')[0]`). -/
def date_of (ts : ℚ) : ℤ := ⌊ts / 86400⌋

/-- The window/category filter of `get_sentiment_trends` and
`get_emotion_analysis`: entries with `timestamp > now - days` and, when a
category is given, an equal category. -/
def relevant_reviews (reviews : List Review) (now : ℚ) (days : ℕ)
    (category : Option String) : List Review :=
  reviews.filter (fun r =>
    decide (now - (days : ℚ) * 86400 < r.timestamp) &&
      match category with
      | none => true
      | some c => r.category = c)

/-- One per-day entry of `trend_data`. -/
structure DayTrend where
  date : ℤ
  positive : ℕ
  negative : ℕ
  neutral : ℕ
  average_score : ℚ
  total_reviews : ℕ
deriving DecidableEq, Repr

/-- `_calculate_distribution`'s percentage triple. -/
structure SentimentDistribution where
  positive_percentage : ℚ
  negative_percentage : ℚ
  neutral_percentage : ℚ
deriving DecidableEq, Repr

/-- `_calculate_distribution`: label percentages over the given review set. -/
def calculate_distribution (reviews : List Review) : SentimentDistribution :=
  let total : ℚ := reviews.length
  if reviews.length = 0 then ⟨0, 0, 0⟩
  else
    ⟨round2 ((reviews.countP (fun r => r.sentiment_label = SentLabel.POSITIVE) : ℚ) / total * 100),
     round2 ((reviews.countP (fun r => r.sentiment_label = SentLabel.NEGATIVE) : ℚ) / total * 100),
     round2 ((reviews.countP (fun r => r.sentiment_label = SentLabel.NEUTRAL) : ℚ) / total * 100)⟩

/-- The `get_sentiment_trends` return dict.  The empty-filter branch carries
only the zero totals, modelled with `none` for the omitted keys. -/
structure TrendReport where
  period_days : ℕ
  category : Option String
  total_reviews : ℕ
  trend_data : List DayTrend
  overall_average_score : Option ℚ
  sentiment_distribution : Option SentimentDistribution
deriving DecidableEq, Repr

/-- `get_sentiment_trends`: filters the ledger to the trailing window (and
category), groups by calendar date, and reports per-day label counts and mean
scores in ascending date order, plus the overall mean and distribution.  An
empty filtered set yields the well-formed zero report. -/
def get_sentiment_trends (reviews : List Review) (now : ℚ) (days : ℕ)
    (category : Option String) : TrendReport :=
  let relevant := relevant_reviews reviews now days category
  if relevant.isEmpty then
    ⟨days, category, 0, [], none, none⟩
  else
    let dates := List.insertionSort (fun a b => a ≤ b)
      (dedupFirst (relevant.map (fun r => date_of r.timestamp)))
    let trend_data := dates.map (fun d =>
      let day := relevant.filter (fun r => date_of r.timestamp = d)
      let pos := day.countP (fun r => r.sentiment_label = SentLabel.POSITIVE)
      let neg := day.countP (fun r => r.sentiment_label = SentLabel.NEGATIVE)
      let neu := day.countP (fun r =>
        r.sentiment_label ≠ SentLabel.POSITIVE ∧ r.sentiment_label ≠ SentLabel.NEGATIVE)
      DayTrend.mk d pos neg neu
        (round3 ((day.map (fun r => r.sentiment_score)).sum / day.length))
        (pos + neg + neu))
    ⟨days, category, relevant.length, trend_data,
      some (round3 ((relevant.map (fun r => r.sentiment_score)).sum / relevant.length)),
      some (calculate_distribution relevant)⟩

/-- `_calculate_cluster_severity`: by related-review count. -/
def cluster_severity (related_review_ids : List String) : String :=
  if related_review_ids.length ≥ 10 then "CRITICAL"
  else if related_review_ids.length ≥ 5 then "HIGH"
  else if related_review_ids.length ≥ 3 then "MEDIUM"
  else "LOW"

/-- `_get_cluster_recommendation`: substring match of the lowercased issue
keyword against five fixed theme buckets, in order, with a generic fallback. -/
def cluster_recommendation (issue : String) : String :=
  if ["staff", "doctor", "nurse"].any (fun w => containsLower issue w) then
    "Review staff training and conduct 1-on-1 meetings"
  else if ["clean", "dirty", "hygiene"].any (fun w => containsLower issue w) then
    "Increase housekeeping frequency and conduct audits"
  else if ["food", "meal", "diet"].any (fun w => containsLower issue w) then
    "Review food preparation procedures with catering team"
  else if ["wait", "delay", "slow"].any (fun w => containsLower issue w) then
    "Review process efficiency and resource allocation"
  else if ["pain", "discomfort", "ache"].any (fun w => containsLower issue w) then
    "Review pain management protocols with medical team"
  else "Investigate and implement corrective measures"

/-- `review_keyword_map`: a dict from review id to its keyword list, built by
iterating the negative reviews (later duplicate ids overwrite in place). -/
def build_keyword_map (negative : List Review) : List (String × List String) :=
  negative.foldl (fun m r => updateAssoc m r.review_id r.keywords) []

/-- One derived issue cluster. -/
structure IssueCluster where
  cluster_id : ℕ
  primary_issue : String
  frequency : ℕ
  related_reviews : List String
  severity : String
  recommendation : String
deriving DecidableEq, Repr

/-- The `cluster_issues` return dict across its three branches, with `none`
for the keys a branch omits. -/
structure ClusterReport where
  clusters : List IssueCluster
  clustering_method : Option String
  total_reviews : Option ℕ
  total_negative_reviews : Option ℕ
  message : Option String
deriving DecidableEq, Repr

/-- `cluster_issues`: restricts to NEGATIVE reviews, counts keyword
occurrences, takes the top `max_clusters` keywords by descending frequency
(stable, so ties break by first-seen order), and builds one cluster per kept
keyword.  Fewer than 3 total reviews, or no negative reviews, yield explicit
empty reports. -/
def cluster_issues (reviews : List Review) (max_clusters : ℕ) : ClusterReport :=
  if reviews.length < 3 then
    ⟨[], some "keyword_based", none, none, none⟩
  else
    let negative := reviews.filter (fun r => r.sentiment_label = SentLabel.NEGATIVE)
    if negative.isEmpty then
      ⟨[], none, some reviews.length, none, some "No negative reviews to cluster"⟩
    else
      let all_kw := negative.flatMap (fun r => r.keywords)
      let key_order := dedupFirst all_kw
      let cnt := fun k => all_kw.count k
      let sorted_keys := List.insertionSort (fun a b => cnt b ≤ cnt a) key_order
      let top := sorted_keys.take max_clusters
      let rid_map := build_keyword_map negative
      let clusters := top.enum.map (fun p =>
        let related := (rid_map.filter (fun q => p.2 ∈ q.2)).map (fun q => q.1)
        IssueCluster.mk (p.1 + 1) p.2 (cnt p.2) related
          (cluster_severity related) (cluster_recommendation p.2))
      ⟨clusters, some "keyword_frequency_based", none, some negative.length, none⟩

/-! ### Concrete example inputs used by counterexamples and witnesses -/

/-- A fresh unacknowledged alert of the given severity, created at time `n`. -/
def mkAlert (sev : AlertSeverity) (n : ℚ) : Alert :=
  ⟨"ALT_" ++ toString n.num, AlertType.SYSTEM_ERROR, sev, "test alert", [], n,
    false, none, none⟩

/-- A NEGATIVE-labeled ledger review with the given id and keyword list. -/
def mkNegReview (rid : String) (kws : List String) : Review :=
  ⟨rid, -1, SentLabel.NEGATIVE, "general", [], kws, 0⟩

/-- The four-alert ledger of the alert-ordering example: severities
`[LOW, CRITICAL, MEDIUM, HIGH]` in creation order, none acknowledged. -/
def fourAlertLedger : List Alert :=
  [mkAlert AlertSeverity.LOW 1, mkAlert AlertSeverity.CRITICAL 2,
   mkAlert AlertSeverity.MEDIUM 3, mkAlert AlertSeverity.HIGH 4]

/-- Six NEGATIVE reviews whose only keyword is `"wait"`. -/
def sixWaitLedger : List Review :=
  [mkNegReview "R1" ["wait"], mkNegReview "R2" ["wait"], mkNegReview "R3" ["wait"],
   mkNegReview "R4" ["wait"], mkNegReview "R5" ["wait"], mkNegReview "R6" ["wait"]]

/-- Six NEGATIVE reviews all containing `"wait"`, one of which also carries an
unshared keyword `"cold"`. -/
def sixWaitColdLedger : List Review :=
  [mkNegReview "R1" ["wait", "cold"], mkNegReview "R2" ["wait"], mkNegReview "R3" ["wait"],
   mkNegReview "R4" ["wait"], mkNegReview "R5" ["wait"], mkNegReview "R6" ["wait"]]

/-- A single logged shift with timestamp `0` (hours 8, 10 patients). -/
def oldShift : ShiftInfo := ⟨"2025-01-01", 8, 10, 0, 5/4, 0⟩

/-! ## Theorems -/

/-! ### Rounding bounds -/

theorem pyRound_eq (x : ℚ) :
    pyRound x =
      if x - (⌊x⌋ : ℚ) < 1/2 then ⌊x⌋
      else if 1/2 < x - (⌊x⌋ : ℚ) then ⌊x⌋ + 1
      else if ⌊x⌋ % 2 = 0 then ⌊x⌋ else ⌊x⌋ + 1 := rfl

theorem pyRound_ge_floor (x : ℚ) : ⌊x⌋ ≤ pyRound x := by
  rw [pyRound_eq]
  split_ifs with h1 h2 h3
  · exact le_refl _
  · exact Int.le_add_one (le_refl _)
  · exact le_refl _
  · exact Int.le_add_one (le_refl _)

theorem pyRound_le_ceil (x : ℚ) : pyRound x ≤ ⌈x⌉ := by
  rw [pyRound_eq]
  split_ifs with h1 h2 h3
  · exact Int.floor_le_ceil x
  · exact Int.add_one_le_ceil_iff.mpr (by linarith [Int.floor_le x])
  · exact Int.floor_le_ceil x
  · have hx : (⌊x⌋ : ℚ) < x := by
      have h12 : x - (⌊x⌋ : ℚ) = 1/2 := le_antisymm (not_lt.mp h2) (not_lt.mp h1)
      linarith
    exact Int.add_one_le_ceil_iff.mpr hx

theorem le_pyRound {x : ℚ} {n : ℤ} (h : (n : ℚ) ≤ x) : n ≤ pyRound x :=
  le_trans (Int.le_floor.mpr h) (pyRound_ge_floor x)

theorem pyRound_le {x : ℚ} {n : ℤ} (h : x ≤ (n : ℚ)) : pyRound x ≤ n :=
  le_trans (pyRound_le_ceil x) (Int.ceil_le.mpr h)

theorem le_round3 {x : ℚ} {n : ℤ} (h : (n : ℚ) ≤ x) : (n : ℚ) ≤ round3 x := by
  have h1 : ((n * 1000 : ℤ) : ℚ) ≤ x * 1000 := by push_cast; linarith
  have h2 : ((n * 1000 : ℤ) : ℚ) ≤ (pyRound (x * 1000) : ℚ) :=
    Int.cast_le.mpr (le_pyRound h1)
  unfold round3
  rw [le_div_iff₀ (by norm_num : (0:ℚ) < 1000)]
  push_cast at h2 ⊢
  linarith

theorem round3_le {x : ℚ} {n : ℤ} (h : x ≤ (n : ℚ)) : round3 x ≤ (n : ℚ) := by
  have h1 : x * 1000 ≤ ((n * 1000 : ℤ) : ℚ) := by push_cast; linarith
  have h2 : (pyRound (x * 1000) : ℚ) ≤ ((n * 1000 : ℤ) : ℚ) :=
    Int.cast_le.mpr (pyRound_le h1)
  unfold round3
  rw [div_le_iff₀ (by norm_num : (0:ℚ) < 1000)]
  push_cast at h2 ⊢
  linarith

theorem le_round2 {x : ℚ} {n : ℤ} (h : (n : ℚ) ≤ x) : (n : ℚ) ≤ round2 x := by
  have h1 : ((n * 100 : ℤ) : ℚ) ≤ x * 100 := by push_cast; linarith
  have h2 : ((n * 100 : ℤ) : ℚ) ≤ (pyRound (x * 100) : ℚ) :=
    Int.cast_le.mpr (le_pyRound h1)
  unfold round2
  rw [le_div_iff₀ (by norm_num : (0:ℚ) < 100)]
  push_cast at h2 ⊢
  linarith

theorem round2_le {x : ℚ} {n : ℤ} (h : x ≤ (n : ℚ)) : round2 x ≤ (n : ℚ) := by
  have h1 : x * 100 ≤ ((n * 100 : ℤ) : ℚ) := by push_cast; linarith
  have h2 : (pyRound (x * 100) : ℚ) ≤ ((n * 100 : ℤ) : ℚ) :=
    Int.cast_le.mpr (pyRound_le h1)
  unfold round2
  rw [div_le_iff₀ (by norm_num : (0:ℚ) < 100)]
  push_cast at h2 ⊢
  linarith

/-! ### C3 — quality-score alert thresholds -/

/-- C3 counterexample: a food quality submission with score exactly 2 (which
the claim says must produce a HIGH alert, `score ≤ 2 → HIGH`) produces no
alert from the alert engine's threshold check, because
`check_food_quality_alert` fires only on `quality_score < 2`. -/
theorem C3_score_two_no_alert :
    (2 : ℚ) ≤ 2 ∧ (check_food_quality_alert initialAlertManager 2 0).1 = none := by
  constructor
  · norm_num
  · unfold check_food_quality_alert
    rw [if_neg]
    simp [initialAlertManager, initialThresholdConfig]

/-- C3 amended: the alert engine's food/room threshold checks produce a HIGH
alert exactly when the score is strictly below 2 (so score 2 produces none),
while the facility engine's submit functions attach a HIGH
`FOOD_QUALITY_CRITICAL`/`ROOM_QUALITY_CRITICAL` signal whenever the score is
at most 2; in particular a room quality submission with `cleanliness_score = 1`
always yields the non-null `ROOM_QUALITY_CRITICAL` signal, regardless of
aspects or comments. -/
theorem C3_quality_thresholds :
    ∀ (q now : ℚ),
      ((check_food_quality_alert initialAlertManager q now).1 = none ↔ ¬ q < 2) ∧
      (∀ a, (check_food_quality_alert initialAlertManager q now).1 = some a →
        a.severity = AlertSeverity.HIGH ∧ a.alert_type = AlertType.FOOD_QUALITY) ∧
      (∀ rid, (check_room_quality_alert initialAlertManager rid q now).1 = none ↔ ¬ q < 2) ∧
      (∀ rid a, (check_room_quality_alert initialAlertManager rid q now).1 = some a →
        a.severity = AlertSeverity.HIGH ∧ a.alert_type = AlertType.ROOM_QUALITY) ∧
      (∀ mon rid room aspects comments, q ≤ 2 →
        (submit_room_quality_review mon rid room q aspects comments now).1.alert =
          some ⟨"ROOM_QUALITY_CRITICAL", "HIGH", some room,
            "Critical room cleanliness issue", now⟩) ∧
      (∀ mon rid aspects comments, q ≤ 2 →
        (submit_food_quality_review mon rid q aspects comments now).1.alert =
          some ⟨"FOOD_QUALITY_CRITICAL", "HIGH", none,
            "Critical food quality issue reported", now⟩) := by
  intro q now
  refine ⟨?_, ?_, ?_, ?_, ?_, ?_⟩
  · unfold check_food_quality_alert
    simp only [initialAlertManager, initialThresholdConfig]
    split_ifs with h <;> simp [h]
  · intro a ha
    unfold check_food_quality_alert at ha
    simp only [initialAlertManager, initialThresholdConfig] at ha
    split_ifs at ha with h
    simp only [Option.some.injEq] at ha
    subst ha
    exact ⟨rfl, rfl⟩
  · intro rid
    unfold check_room_quality_alert
    simp only [initialAlertManager, initialThresholdConfig]
    split_ifs with h <;> simp [h]
  · intro rid a ha
    unfold check_room_quality_alert at ha
    simp only [initialAlertManager, initialThresholdConfig] at ha
    split_ifs at ha with h
    simp only [Option.some.injEq] at ha
    subst ha
    exact ⟨rfl, rfl⟩
  · intro mon rid room aspects comments hq
    unfold submit_room_quality_review
    simp [hq]
  · intro mon rid aspects comments hq
    unfold submit_food_quality_review
    simp [hq]

/-- C3 witness: score 1 triggers the alert-engine food check, and a room
quality submission with cleanliness score 1 carries the
`ROOM_QUALITY_CRITICAL`/HIGH signal. -/
theorem C3_quality_thresholds_witness :
    (check_food_quality_alert initialAlertManager 1 0).1 ≠ none ∧
    (submit_room_quality_review ⟨[], []⟩ "REV1" "R7" 1 [] "" 0).1.alert =
      some ⟨"ROOM_QUALITY_CRITICAL", "HIGH", some "R7",
        "Critical room cleanliness issue", 0⟩ := by
  constructor
  · intro hn
    exact absurd ((C3_quality_thresholds 1 0).1.mp hn) (by norm_num)
  · exact (C3_quality_thresholds 1 0).2.2.2.2.1 ⟨[], []⟩ "REV1" "R7" [] "" (by norm_num)

/-! ### C5 — burnout report on missing/out-of-window data -/

/-- C5 counterexample: a doctor whose only logged shift lies outside the
30-day window gets `risk_level = LOW` (with score 0), not the `NO_DATA` level
the claim requires whenever no shifts fall in the window. -/
theorem C5_stale_shift_low_not_no_data :
    (calculate_burnout_risk "D1" [oldShift] 2592000 30).risk_level = RiskLevel.LOW ∧
    RiskLevel.LOW ≠ RiskLevel.NO_DATA := by
  constructor
  · have h2 : (([oldShift] : List ShiftInfo).filter
        (fun s => decide ((2592000 : ℚ) - ((30 : ℕ) : ℚ) * 86400 < s.timestamp))) = [] := by
      rw [List.filter_eq_nil_iff]
      intro s hs
      simp only [List.mem_singleton] at hs
      subst hs
      simp only [decide_eq_true_eq, not_lt]
      norm_num [oldShift]
    unfold calculate_burnout_risk
    rw [if_neg (by decide), if_pos (by rw [h2] ; rfl)]
  · decide

/-- C5 amended: `calculate_burnout_risk` distinguishes two degenerate cases —
a doctor with no logged shifts at all gets a `NO_DATA` report with risk score
0, while a doctor whose shifts all lie outside the trailing window gets a
`LOW` report with risk score 0 (both with empty metrics and no
recommendations). -/
theorem C5_no_data_vs_empty_window :
    ∀ (did : String) (now : ℚ) (w : ℕ),
      calculate_burnout_risk did [] now w =
        ⟨did, RiskLevel.NO_DATA, 0, none, none⟩ ∧
      (∀ logs : List ShiftInfo, logs ≠ [] →
        (∀ s ∈ logs, s.timestamp ≤ now - (w : ℚ) * 86400) →
        calculate_burnout_risk did logs now w =
          ⟨did, RiskLevel.LOW, 0, none, none⟩) := by
  intro did now w
  constructor
  · rfl
  · intro logs hne hall
    have h1 : logs.isEmpty = false := by
      cases logs with
      | nil => exact absurd rfl hne
      | cons a l => rfl
    have h2 : (logs.filter
        (fun s => decide (now - (w : ℚ) * 86400 < s.timestamp))) = [] := by
      rw [List.filter_eq_nil_iff]
      intro s hs
      simp only [decide_eq_true_eq, not_lt]
      exact hall s hs
    simp [calculate_burnout_risk, h1, h2]

/-- C5 witness: the no-shifts and stale-shift branches at concrete inputs. -/
theorem C5_no_data_vs_empty_window_witness :
    calculate_burnout_risk "D2" [] 0 30 =
      ⟨"D2", RiskLevel.NO_DATA, 0, none, none⟩ ∧
    calculate_burnout_risk "D2" [oldShift] 2592000 30 =
      ⟨"D2", RiskLevel.LOW, 0, none, none⟩ := by
  refine ⟨(C5_no_data_vs_empty_window "D2" 0 30).1, ?_⟩
  refine (C5_no_data_vs_empty_window "D2" 2592000 30).2 [oldShift] (by simp) ?_
  intro s hs
  simp only [List.mem_singleton] at hs
  subst hs
  norm_num [oldShift]

/-! ### C9 — burnout score monotonicity -/

/-- C9: the burnout score (`hours_factor + patient_factor + emergency_factor`
as computed in `calculate_burnout_risk`) is monotonically non-decreasing in
each of the three per-shift averages, holding the other two fixed. -/
theorem C9_burnout_monotone :
    ∀ h h' p p' e e' : ℚ,
      (h ≤ h' → burnout_score_of h p e ≤ burnout_score_of h' p e) ∧
      (p ≤ p' → burnout_score_of h p e ≤ burnout_score_of h p' e) ∧
      (e ≤ e' → burnout_score_of h p e ≤ burnout_score_of h p e') := by
  intro h h' p p' e e'
  unfold burnout_score_of hours_factor_of patient_factor_of emergency_factor_of
  refine ⟨fun hle => ?_, fun hle => ?_, fun hle => ?_⟩ <;> gcongr

/-- C9 witness: raising average hours from 8 to 12 does not lower the score. -/
theorem C9_burnout_monotone_witness :
    burnout_score_of 8 10 0 ≤ burnout_score_of 12 10 0 :=
  (C9_burnout_monotone 8 12 10 10 0 0).1 (by norm_num)

/-! ### C1 — active-alert ordering -/

/-- C1 counterexample: with four unacknowledged alerts of severities
`[LOW, CRITICAL, MEDIUM, HIGH]` in creation order, `get_active_alerts`
returns them as `[LOW, MEDIUM, HIGH, CRITICAL]` — the sort key ranks
CRITICAL as 0 but `reverse = True` puts the *largest* rank first — not as
the `[CRITICAL, HIGH, MEDIUM, LOW]` required by the claim. -/
theorem C1_low_severity_first :
    (get_active_alerts fourAlertLedger none).map (fun a => a.severity) =
      [AlertSeverity.LOW, AlertSeverity.MEDIUM, AlertSeverity.HIGH,
        AlertSeverity.CRITICAL] ∧
    (get_active_alerts fourAlertLedger none).map (fun a => a.severity) ≠
      [AlertSeverity.CRITICAL, AlertSeverity.HIGH, AlertSeverity.MEDIUM,
        AlertSeverity.LOW] := by
  constructor <;> decide

/-- C1 amended: `get_active_alerts` returns exactly the unacknowledged
alerts (optionally filtered by severity), stably sorted *least severe first*
(non-increasing severity rank, i.e. descending by the rank numbers
`CRITICAL=0 … LOW=3`); in particular the four example alerts come back in
the order `[LOW, MEDIUM, HIGH, CRITICAL]`. -/
theorem C1_active_alerts_sorted :
    ∀ (alerts : List Alert) (sev : Option AlertSeverity),
      List.Perm (get_active_alerts alerts sev) (activeFiltered alerts sev) ∧
      List.Sorted activeAlertRel (get_active_alerts alerts sev) ∧
      (∀ a ∈ get_active_alerts alerts sev, a.acknowledged = false) ∧
      (∀ s, sev = some s → ∀ a ∈ get_active_alerts alerts sev, a.severity = s) ∧
      (get_active_alerts fourAlertLedger none).map (fun a => a.severity) =
        [AlertSeverity.LOW, AlertSeverity.MEDIUM, AlertSeverity.HIGH,
          AlertSeverity.CRITICAL] := by
  intro alerts sev
  have hperm : List.Perm (get_active_alerts alerts sev) (activeFiltered alerts sev) :=
    List.perm_insertionSort activeAlertRel (activeFiltered alerts sev)
  refine ⟨hperm, List.sorted_insertionSort activeAlertRel _, ?_, ?_, by decide⟩
  · intro a ha
    have ha' : a ∈ activeFiltered alerts sev := hperm.mem_iff.mp ha
    cases sev with
    | none =>
        simp only [activeFiltered, List.mem_filter] at ha'
        simpa using ha'.2
    | some s =>
        simp only [activeFiltered, List.mem_filter] at ha'
        simpa using ha'.1.2
  · intro s hs a ha
    subst hs
    have ha' : a ∈ activeFiltered alerts (some s) := hperm.mem_iff.mp ha
    simp only [activeFiltered, List.mem_filter] at ha'
    simpa using ha'.2

/-- C1 witness: concrete consequences of the amended ordering theorem at the
four-alert ledger. -/
theorem C1_active_alerts_sorted_witness :
    (mkAlert AlertSeverity.LOW 1).acknowledged = false ∧
    (mkAlert AlertSeverity.CRITICAL 2).severity = AlertSeverity.CRITICAL := by
  constructor
  · exact (C1_active_alerts_sorted fourAlertLedger none).2.2.1
      (mkAlert AlertSeverity.LOW 1) (by decide)
  · exact (C1_active_alerts_sorted fourAlertLedger
        (some AlertSeverity.CRITICAL)).2.2.2.1 AlertSeverity.CRITICAL rfl
      (mkAlert AlertSeverity.CRITICAL 2) (by decide)

/-! ### C4 — acknowledgment is not idempotent on the recorded actor/time -/

/-- C4 counterexample: acknowledging the same alert twice succeeds both
times, but the second call *changes* `acknowledged_at`/`acknowledged_by`
(from `(100, "userA")` to `(200, "userB")`), contradicting the claimed
no-op/first-values-preserved behaviour. -/
theorem C4_second_ack_changes_fields :
    (acknowledge_alert [mkAlert AlertSeverity.HIGH 1]
      (mkAlert AlertSeverity.HIGH 1).alert_id "userA" 100).1 = true ∧
    (acknowledge_alert
      (acknowledge_alert [mkAlert AlertSeverity.HIGH 1]
        (mkAlert AlertSeverity.HIGH 1).alert_id "userA" 100).2
      (mkAlert AlertSeverity.HIGH 1).alert_id "userB" 200).1 = true ∧
    ((acknowledge_alert [mkAlert AlertSeverity.HIGH 1]
        (mkAlert AlertSeverity.HIGH 1).alert_id "userA" 100).2.map
      (fun a => (a.acknowledged_at, a.acknowledged_by))) =
      [(some 100, some "userA")] ∧
    ((acknowledge_alert
        (acknowledge_alert [mkAlert AlertSeverity.HIGH 1]
          (mkAlert AlertSeverity.HIGH 1).alert_id "userA" 100).2
        (mkAlert AlertSeverity.HIGH 1).alert_id "userB" 200).2.map
      (fun a => (a.acknowledged_at, a.acknowledged_by))) =
      [(some 200, some "userB")] ∧
    (some (200 : ℚ), some "userB") ≠ (some (100 : ℚ), some "userA") := by
  refine ⟨by decide, by decide, by decide, by decide, by decide⟩

/-- C4 amended: acknowledging an existing alert id succeeds (`True`) and
re-acknowledging succeeds again, but the second call *overwrites*
`acknowledged_at` and `acknowledged_by` with the second caller's timestamp
and user id (the most recent actor wins; re-acknowledgment is a success but
not a field-preserving no-op). -/
theorem C4_ack_twice_overwrites :
    ∀ (alerts : List Alert) (aid u1 u2 : String) (t1 t2 : ℚ),
      (∃ a ∈ alerts, a.alert_id = aid) →
      (acknowledge_alert alerts aid u1 t1).1 = true ∧
      (acknowledge_alert (acknowledge_alert alerts aid u1 t1).2 aid u2 t2).1 = true ∧
      ∃ a ∈ (acknowledge_alert (acknowledge_alert alerts aid u1 t1).2 aid u2 t2).2,
        a.alert_id = aid ∧ a.acknowledged = true ∧
        a.acknowledged_at = some t2 ∧ a.acknowledged_by = some u2 := by
  intro alerts aid u1 u2 t1 t2
  induction alerts with
  | nil =>
      intro hex
      obtain ⟨a, ha, _⟩ := hex
      exact absurd ha (List.not_mem_nil a)
  | cons b rest ih =>
      intro hex
      by_cases hb : b.alert_id = aid
      · have e1 : acknowledge_alert (b :: rest) aid u1 t1 =
            (true, b.ack u1 t1 :: rest) := by
          unfold acknowledge_alert
          rw [if_pos hb]
        have hb2 : (Alert.ack b u1 t1).alert_id = aid := hb
        have e2 : acknowledge_alert (b.ack u1 t1 :: rest) aid u2 t2 =
            (true, (b.ack u1 t1).ack u2 t2 :: rest) := by
          unfold acknowledge_alert
          rw [if_pos hb2]
        rw [e1]
        dsimp only
        rw [e2]
        exact ⟨rfl, rfl, (b.ack u1 t1).ack u2 t2, List.mem_cons_self _ _,
          hb, rfl, rfl, rfl⟩
      · have hex' : ∃ a ∈ rest, a.alert_id = aid := by
          obtain ⟨a, ha, haid⟩ := hex
          rcases List.mem_cons.mp ha with h | h
          · exact absurd (h ▸ haid) hb
          · exact ⟨a, h, haid⟩
        obtain ⟨ih1, ih2, a', ha', hprops⟩ := ih hex'
        have e1 : acknowledge_alert (b :: rest) aid u1 t1 =
            ((acknowledge_alert rest aid u1 t1).1,
              b :: (acknowledge_alert rest aid u1 t1).2) := by
          simp only [acknowledge_alert]
          rw [if_neg hb]
        have e2 : acknowledge_alert
            (b :: (acknowledge_alert rest aid u1 t1).2) aid u2 t2 =
            ((acknowledge_alert ((acknowledge_alert rest aid u1 t1).2) aid u2 t2).1,
              b :: (acknowledge_alert ((acknowledge_alert rest aid u1 t1).2) aid u2 t2).2) := by
          simp only [acknowledge_alert]
          rw [if_neg hb]
        rw [e1]
        dsimp only
        rw [e2]
        exact ⟨ih1, ih2, a', List.mem_cons_of_mem b ha', hprops⟩

/-- C4 witness: both acknowledgments of a concrete stored alert succeed. -/
theorem C4_ack_twice_overwrites_witness :
    (acknowledge_alert [mkAlert AlertSeverity.HIGH 1]
      (mkAlert AlertSeverity.HIGH 1).alert_id "u1" 1).1 = true :=
  (C4_ack_twice_overwrites [mkAlert AlertSeverity.HIGH 1]
    (mkAlert AlertSeverity.HIGH 1).alert_id "u1" "u2" 1 2
    ⟨mkAlert AlertSeverity.HIGH 1, List.mem_singleton_self _, rfl⟩).1

/-! ### C2 — sentiment label decision -/

/-- C2: the label is decided by the ordered rule of
`comprehensive_analysis` — POSITIVE when the fused score exceeds 0.3;
otherwise NEGATIVE when the fused score is below -0.3 or a curated negative
keyword matches and VADER or TextBlob is itself negative; otherwise (the
score sits in `[-0.3, 0.3]` and the keyword override fails) NEUTRAL, exactly —
and consequently the label is never POSITIVE when the fused score is ≤ 0. -/
theorem C2_label_decision :
    ∀ (text : String) (sig : SignalOutputs),
      (overall_score_raw sig > 3/10 →
        sentiment_label_of text sig = SentLabel.POSITIVE) ∧
      (overall_score_raw sig < -(3/10) →
        sentiment_label_of text sig = SentLabel.NEGATIVE) ∧
      (¬ overall_score_raw sig > 3/10 → 0 < neg_count text →
        sig.vader_compound < 0 ∨ sig.polarity < 0 →
        sentiment_label_of text sig = SentLabel.NEGATIVE) ∧
      (sentiment_label_of text sig = SentLabel.POSITIVE ↔
        overall_score_raw sig > 3/10) ∧
      (overall_score_raw sig ≤ 0 →
        sentiment_label_of text sig ≠ SentLabel.POSITIVE) ∧
      (sentiment_label_of text sig = SentLabel.NEUTRAL ↔
        ¬ overall_score_raw sig > 3/10 ∧
        ¬ (overall_score_raw sig < -(3/10) ∨
          (0 < neg_count text ∧ (sig.vader_compound < 0 ∨ sig.polarity < 0)))) := by
  intro text sig
  have hdef : sentiment_label_of text sig =
      if overall_score_raw sig > 3/10 then SentLabel.POSITIVE
      else if overall_score_raw sig < -(3/10) ∨
          (0 < neg_count text ∧ (sig.vader_compound < 0 ∨ sig.polarity < 0)) then
        SentLabel.NEGATIVE
      else SentLabel.NEUTRAL := rfl
  rw [hdef]
  refine ⟨?_, ?_, ?_, ?_, ?_, ?_⟩
  · intro h
    rw [if_pos h]
  · intro h
    rw [if_neg (by linarith), if_pos (Or.inl h)]
  · intro h1 h2 h3
    rw [if_neg h1, if_pos (Or.inr ⟨h2, h3⟩)]
  · constructor
    · intro h
      split_ifs at h with h1 h2
      exact h1
    · intro h
      rw [if_pos h]
  · intro h hc
    split_ifs at hc with h1 h2
    linarith
  · constructor
    · intro h
      split_ifs at h with h1 h2
      exact ⟨h1, h2⟩
    · rintro ⟨h1, h2⟩
      rw [if_neg h1, if_neg h2]

/-- C2 witness: a keyword-matched text with a negative VADER signal and a
fused score in the dead zone is labeled NEGATIVE, while a keyword-free text
with all-neutral signals is labeled NEUTRAL. -/
theorem C2_label_decision_witness :
    sentiment_label_of "the food was bad" ⟨-1, 0, 0, none⟩ = SentLabel.NEGATIVE ∧
    sentiment_label_of "great staff" ⟨0, 0, 0, none⟩ = SentLabel.NEUTRAL := by
  constructor
  · apply (C2_label_decision "the food was bad" ⟨-1, 0, 0, none⟩).2.2.1
    · norm_num [overall_score_raw, transformer_score_value]
    · decide
    · exact Or.inl (by norm_num)
  · apply (C2_label_decision "great staff" ⟨0, 0, 0, none⟩).2.2.2.2.2.mpr
    constructor
    · norm_num [overall_score_raw, transformer_score_value]
    · rw [not_or]
      constructor
      · norm_num [overall_score_raw, transformer_score_value]
      · exact fun hc => absurd hc.1 (by decide)

/-! ### C6 — fused score and subjectivity bounds -/

/-- C6: whenever each fused sub-signal lies in its documented range (VADER
compound and TextBlob polarity in `[-1, 1]`, subjectivity in `[0, 1]`, the
classifier score in `[-1, 1]` when available, defaulting to the neutral 0
when unavailable), the reported `overall_score` lies in `[-1, 1]`, the
reported `subjectivity` lies in `[0, 1]`, and `overall_score` equals
`0.4·lexicon + 0.3·polarity + 0.3·classifier` rounded to 3 decimals. -/
theorem C6_score_bounds :
    ∀ (text : String) (sig : SignalOutputs),
      |sig.vader_compound| ≤ 1 → |sig.polarity| ≤ 1 →
      0 ≤ sig.subjectivity → sig.subjectivity ≤ 1 →
      (∀ t ∈ sig.transformer_score, |t| ≤ 1) →
      (-1 ≤ (comprehensive_analysis text sig).overall_score ∧
        (comprehensive_analysis text sig).overall_score ≤ 1) ∧
      (0 ≤ (comprehensive_analysis text sig).subjectivity ∧
        (comprehensive_analysis text sig).subjectivity ≤ 1) ∧
      (comprehensive_analysis text sig).overall_score =
        round3 (sig.vader_compound * (4/10) + sig.polarity * (3/10) +
          transformer_score_value sig * (3/10)) := by
  intro text sig hv hp hs0 hs1 ht
  have htv : |transformer_score_value sig| ≤ 1 := by
    rcases h' : sig.transformer_score with _ | t
    · simp [transformer_score_value, h']
    · have := ht t (by simp [h'])
      simpa [transformer_score_value, h'] using this
  obtain ⟨hv1, hv2⟩ := abs_le.mp hv
  obtain ⟨hp1, hp2⟩ := abs_le.mp hp
  obtain ⟨ht1, ht2⟩ := abs_le.mp htv
  have hraw1 : -1 ≤ overall_score_raw sig := by
    unfold overall_score_raw
    linarith
  have hraw2 : overall_score_raw sig ≤ 1 := by
    unfold overall_score_raw
    linarith
  refine ⟨⟨?_, ?_⟩, ⟨?_, ?_⟩, rfl⟩
  · show -1 ≤ round3 (overall_score_raw sig)
    exact_mod_cast @le_round3 (overall_score_raw sig) (-1) (by exact_mod_cast hraw1)
  · show round3 (overall_score_raw sig) ≤ 1
    exact_mod_cast @round3_le (overall_score_raw sig) 1 (by exact_mod_cast hraw2)
  · show 0 ≤ round3 sig.subjectivity
    exact_mod_cast @le_round3 sig.subjectivity 0 (by exact_mod_cast hs0)
  · show round3 sig.subjectivity ≤ 1
    exact_mod_cast @round3_le sig.subjectivity 1 (by exact_mod_cast hs1)

/-- C6 witness: all-neutral signals (classifier unavailable) give an
overall score inside `[-1, 1]`. -/
theorem C6_score_bounds_witness :
    -1 ≤ (comprehensive_analysis "okay visit" ⟨0, 0, 0, none⟩).overall_score ∧
    (comprehensive_analysis "okay visit" ⟨0, 0, 0, none⟩).overall_score ≤ 1 :=
  (C6_score_bounds "okay visit" ⟨0, 0, 0, none⟩ (by norm_num) (by norm_num)
    le_rfl (by norm_num) (by simp)).1

/-! ### C8 — trend report over an empty filtered window -/

/-- C8: whenever the window/category filter selects no reviews,
`get_sentiment_trends` returns the well-formed zero report — `total_reviews`
0 and an empty `trend_data` (with the optional aggregate keys absent) — and
never a failure. -/
theorem C8_empty_trend_report :
    ∀ (reviews : List Review) (now : ℚ) (days : ℕ) (category : Option String),
      relevant_reviews reviews now days category = [] →
      get_sentiment_trends reviews now days category =
        ⟨days, category, 0, [], none, none⟩ := by
  intro reviews now days category h
  unfold get_sentiment_trends
  rw [h]
  rfl

/-- C8 witness: the empty ledger gives the zero report for a 30-day window. -/
theorem C8_empty_trend_report_witness :
    get_sentiment_trends [] 0 30 none = ⟨30, none, 0, [], none, none⟩ :=
  C8_empty_trend_report [] 0 30 none rfl

/-! ### C10 — rating report with no tracked samples -/

/-- C10: a doctor with no tracked sentiment samples gets rating 0 (outside
the 1–5 scale that doctors with samples receive: with every sample score in
`[-1, 1]` the reported rating lies in `[1, 5]`), total_reviews 0 and an empty
distribution, and the composite performance score then receives a zero
rating contribution (`0.5 * (0/5*100) = 0`), reducing to the burnout and
complaint terms alone. -/
theorem C10_rating_no_samples :
    ∀ (did : String) (b : ℚ) (c : ℕ),
      get_doctor_rating did [] = ⟨did, 0, 0, none, [], none⟩ ∧
      performance_score_of 0 b c =
        ((1 - b) * 100) * (3/10) + (100 - min ((c : ℚ) * 5) 100) * (2/10) ∧
      (∀ (st : DoctorState) (now : ℚ), st.sentiment_scores = [] →
        overall_performance_score did st now =
          round2 (((1 - (calculate_burnout_risk did st.duty_logs now 30).risk_score) * 100) * (3/10) +
            (100 - min ((st.complaints.length : ℚ) * 5) 100) * (2/10))) ∧
      (∀ samples : List SentimentSample, samples ≠ [] →
        (∀ s ∈ samples, -1 ≤ s.score ∧ s.score ≤ 1) →
        1 ≤ (get_doctor_rating did samples).rating ∧
          (get_doctor_rating did samples).rating ≤ 5) := by
  intro did b c
  refine ⟨rfl, ?_, ?_, ?_⟩
  · unfold performance_score_of
    ring
  · intro st now hempty
    unfold overall_performance_score
    rw [hempty]
    have h0 : (get_doctor_rating did []).rating = 0 := rfl
    rw [h0]
    congr 1
    unfold performance_score_of
    ring
  · intro samples hne hbounds
    have hlen : 0 < ((samples.map (fun s => s.score)).length : ℚ) := by
      rw [List.length_map]
      exact_mod_cast List.length_pos.mpr hne
    have hup : (samples.map (fun s => s.score)).sum ≤
        ((samples.map (fun s => s.score)).length : ℚ) * 1 := by
      have h := List.sum_le_card_nsmul (samples.map (fun s => s.score)) 1 ?_
      · simpa [nsmul_eq_mul] using h
      · intro x hx
        obtain ⟨s, hs, rfl⟩ := List.mem_map.mp hx
        exact (hbounds s hs).2
    have hlo : ((samples.map (fun s => s.score)).length : ℚ) * (-1) ≤
        (samples.map (fun s => s.score)).sum := by
      have h := List.card_nsmul_le_sum (samples.map (fun s => s.score)) (-1) ?_
      · simpa [nsmul_eq_mul] using h
      · intro x hx
        obtain ⟨s, hs, rfl⟩ := List.mem_map.mp hx
        exact (hbounds s hs).1
    have havg1 : -1 ≤ (samples.map (fun s => s.score)).sum /
        ((samples.map (fun s => s.score)).length : ℚ) := by
      rw [le_div_iff₀ hlen]
      linarith
    have havg2 : (samples.map (fun s => s.score)).sum /
        ((samples.map (fun s => s.score)).length : ℚ) ≤ 1 := by
      rw [div_le_iff₀ hlen]
      linarith
    have hie : samples.isEmpty = false := by
      cases samples with
      | nil => exact absurd rfl hne
      | cons a l => rfl
    have hr : (get_doctor_rating did samples).rating =
        round2 (rating_of_score ((samples.map (fun s => s.score)).sum /
          ((samples.map (fun s => s.score)).length : ℚ))) := by
      unfold get_doctor_rating
      rw [if_neg (by rw [hie]; simp)]
    rw [hr]
    have hrs1 : (1 : ℚ) ≤ rating_of_score ((samples.map (fun s => s.score)).sum /
        ((samples.map (fun s => s.score)).length : ℚ)) := by
      unfold rating_of_score
      linarith
    have hrs2 : rating_of_score ((samples.map (fun s => s.score)).sum /
        ((samples.map (fun s => s.score)).length : ℚ)) ≤ 5 := by
      unfold rating_of_score
      linarith
    constructor
    · exact_mod_cast @le_round2 _ 1 (by exact_mod_cast hrs1)
    · exact_mod_cast @round2_le _ 5 (by exact_mod_cast hrs2)

/-- C10 witness: the no-samples zero report, and a one-sample doctor whose
rating lands inside `[1, 5]`. -/
theorem C10_rating_no_samples_witness :
    get_doctor_rating "D1" [] = ⟨"D1", 0, 0, none, [], none⟩ ∧
    1 ≤ (get_doctor_rating "D1" [⟨1, none, 0⟩]).rating ∧
    (get_doctor_rating "D1" [⟨1, none, 0⟩]).rating ≤ 5 := by
  obtain ⟨h1, h2⟩ := (C10_rating_no_samples "D1" 0 0).2.2.2 [⟨1, none, 0⟩]
    (by simp)
    (by
      intro s hs
      simp only [List.mem_singleton] at hs
      subst hs
      norm_num)
  exact ⟨(C10_rating_no_samples "D1" 0 0).1, h1, h2⟩

/-! ### C7 — clustering six "wait" reviews -/

/-- C7 counterexample: six NEGATIVE reviews that all contain `"wait"` and
share no *other* keyword (one review carries the unshared keyword `"cold"`,
occurring in that single review only) produce **two** clusters, not the
exactly-one cluster the claim requires: unshared keywords still get their
own frequency-1 clusters within the `max_clusters` budget. -/
theorem C7_unshared_keyword_extra_cluster :
    (∀ r ∈ sixWaitColdLedger,
      r.sentiment_label = SentLabel.NEGATIVE ∧ "wait" ∈ r.keywords) ∧
    (∀ kw ∈ sixWaitColdLedger.flatMap (fun r => r.keywords), kw ≠ "wait" →
      (sixWaitColdLedger.filter (fun r => kw ∈ r.keywords)).length ≤ 1) ∧
    (cluster_issues sixWaitColdLedger 5).clusters.length = 2 := by
  refine ⟨by decide, by decide, by decide⟩

/-- Keyword lists that are all `[kw]` flatten to a replicate. -/
theorem flatMap_keywords_const (l : List Review) (kw : String)
    (h : ∀ r ∈ l, r.keywords = [kw]) :
    l.flatMap (fun r => r.keywords) = List.replicate l.length kw := by
  induction l with
  | nil => rfl
  | cons r rest ih =>
      simp only [List.flatMap_cons, List.length_cons, List.replicate_succ]
      rw [h r (List.mem_cons_self r rest),
        ih (fun x hx => h x (List.mem_cons_of_mem r hx))]
      rfl

/-- Inserting a fresh key into an association list appends it. -/
theorem updateAssoc_append (m : List (String × List String)) (k : String)
    (v : List String) (h : k ∉ m.map Prod.fst) :
    updateAssoc m k v = m ++ [(k, v)] := by
  induction m with
  | nil => rfl
  | cons p rest ih =>
      obtain ⟨k', v'⟩ := p
      simp only [List.map_cons, List.mem_cons] at h
      push_neg at h
      unfold updateAssoc
      rw [if_neg (fun he => h.1 he.symm), ih h.2]
      rfl

/-- Folding `updateAssoc` over reviews with pairwise distinct ids (all fresh
relative to the accumulator) appends one entry per review, in order. -/
theorem build_keyword_map_fresh (l : List Review) :
    ∀ m : List (String × List String),
      (l.map (fun r => r.review_id)).Nodup →
      (∀ r ∈ l, r.review_id ∉ m.map Prod.fst) →
      l.foldl (fun acc r => updateAssoc acc r.review_id r.keywords) m =
        m ++ l.map (fun r => (r.review_id, r.keywords)) := by
  induction l with
  | nil =>
      intro m _ _
      simp
  | cons r rest ih =>
      intro m hnd hdisj
      have hfresh : r.review_id ∉ m.map Prod.fst :=
        hdisj r (List.mem_cons_self r rest)
      have hnd' : (rest.map (fun x => x.review_id)).Nodup :=
        (List.nodup_cons.mp (by simpa using hnd)).2
      have hhead : r.review_id ∉ rest.map (fun x => x.review_id) :=
        (List.nodup_cons.mp (by simpa using hnd)).1
      simp only [List.foldl_cons]
      rw [updateAssoc_append m r.review_id r.keywords hfresh]
      rw [ih (m ++ [(r.review_id, r.keywords)]) hnd' ?_]
      · simp
      · intro x hx
        simp only [List.map_append, List.mem_append, List.map_cons,
          List.map_nil, List.mem_singleton]
        push_neg
        refine ⟨hdisj x (List.mem_cons_of_mem r hx), ?_⟩
        intro he
        exact hhead (he ▸ List.mem_map_of_mem (fun y => y.review_id) hx)

/-- C7 amended: a ledger of 6 NEGATIVE reviews with pairwise distinct ids
whose keyword list is exactly `["wait"]` (no unshared extra keywords — the
source clusters those too) yields exactly one cluster, with frequency 6,
severity HIGH, all six review ids attached, and the wait-time-themed
recommendation. -/
theorem C7_six_wait_reviews :
    ∀ reviews : List Review,
      reviews.length = 6 →
      (∀ r ∈ reviews, r.sentiment_label = SentLabel.NEGATIVE ∧ r.keywords = ["wait"]) →
      (reviews.map (fun r => r.review_id)).Nodup →
      (cluster_issues reviews 5).clusters =
        [⟨1, "wait", 6, reviews.map (fun r => r.review_id), "HIGH",
          "Review process efficiency and resource allocation"⟩] ∧
      (cluster_issues reviews 5).total_negative_reviews = some 6 := by
  intro reviews hlen hall hnd
  have hneg : reviews.filter (fun r => r.sentiment_label = SentLabel.NEGATIVE) =
      reviews := by
    rw [List.filter_eq_self]
    intro r hr
    simp [(hall r hr).1]
  have hnotlt : ¬ reviews.length < 3 := by
    rw [hlen]
    norm_num
  have hie : reviews.isEmpty = false := by
    cases reviews with
    | nil => simp at hlen
    | cons a l => rfl
  have hflat : reviews.flatMap (fun r => r.keywords) = List.replicate 6 "wait" := by
    rw [flatMap_keywords_const reviews "wait" (fun r hr => (hall r hr).2), hlen]
  have hmap : build_keyword_map reviews =
      reviews.map (fun r => (r.review_id, r.keywords)) := by
    unfold build_keyword_map
    rw [build_keyword_map_fresh reviews [] hnd (by simp)]
    simp
  have hmap2 : build_keyword_map reviews =
      reviews.map (fun r => (r.review_id, ["wait"])) := by
    rw [hmap]
    exact List.map_congr_left (fun r hr => by rw [(hall r hr).2])
  have hfilter : (reviews.map (fun r => (r.review_id, ["wait"]))).filter
      (fun q => "wait" ∈ q.2) = reviews.map (fun r => (r.review_id, ["wait"])) := by
    rw [List.filter_eq_self]
    intro q hq
    obtain ⟨r, _, rfl⟩ := List.mem_map.mp hq
    simp
  have hrel : (reviews.map (fun r => (r.review_id, ["wait"]))).map (fun q => q.1) =
      reviews.map (fun r => r.review_id) := by
    rw [List.map_map]
    rfl
  have hsev : cluster_severity (reviews.map (fun r => r.review_id)) = "HIGH" := by
    unfold cluster_severity
    rw [List.length_map, hlen]
    norm_num
  have hrec : cluster_recommendation "wait" =
      "Review process efficiency and resource allocation" := by decide
  have hcnt : (List.replicate 6 "wait").count "wait" = 6 := by decide
  have hded : dedupFirst (List.replicate 6 "wait") = ["wait"] := by decide
  unfold cluster_issues
  rw [if_neg hnotlt, hneg]
  rw [if_neg (by rw [hie]; simp)]
  simp only [hflat, hded, hmap2]
  constructor
  · simp only [List.insertionSort, List.orderedInsert, List.take, List.enum,
      List.enumFrom, List.map_cons, List.map_nil, hfilter, hrel, hsev, hrec, hcnt]
  · simp [hlen]

/-- C7 witness: the concrete six-review all-`"wait"` ledger produces exactly
the one HIGH cluster. -/
theorem C7_six_wait_reviews_witness :
    (cluster_issues sixWaitLedger 5).clusters =
      [⟨1, "wait", 6, ["R1", "R2", "R3", "R4", "R5", "R6"], "HIGH",
        "Review process efficiency and resource allocation"⟩] := by
  have hids : sixWaitLedger.map (fun r => r.review_id) =
      ["R1", "R2", "R3", "R4", "R5", "R6"] := by decide
  rw [← hids]
  exact (C7_six_wait_reviews sixWaitLedger (by decide) (by decide) (by decide)).1
